import Mathlib

/-!
Verification of the content decision-and-generation pipeline of the headless
Twitter agent (`agent_headless.py`).  The agent's pure decision logic is
embedded shallowly: Python strings become `String`, values that may be the
Python `None` become `Option`, Python truthiness on strings (`if not s`) is
made explicit, calls to external services (the AI model, the news provider,
the browser) become parameters carrying the external response, and every
method that catches exceptions and returns `None` becomes a function into
`Option`.
-/

namespace TwitterAgent

/-- Python slice `s[:n]`: the first `n` characters of `s` (all of `s` when it
is shorter). -/
def pySlice (s : String) (n : Nat) : String :=
  String.mk (s.data.take n)

/-- Python truthiness of an optional string: `None` and the empty string are
falsy, every other string is truthy. -/
def pyTruthy : Option String → Bool
  | none => false
  | some s => s ≠ ""

/-- Python `a or b` on two optional strings: yields `a` when `a` is truthy,
otherwise `b`. -/
def pyOrStr (a b : Option String) : Option String :=
  if pyTruthy a then a else b

/-- `HeadlessTwitterAgent.TWITTER_CHAR_LIMIT`. -/
def TWITTER_CHAR_LIMIT : Nat := 280

/-- `HeadlessTwitterAgent._truncate_or_summarize(text)`.  The AI
resummarization call `call_ai_model(prompt, skip_json_parse=True)` is passed
in as `summarized` (`none` when the call failed and returned Python `None`).
The code reads:
`if len(text) <= limit: return text` /
`if not summarized_text or len(summarized_text) > limit: return text[:limit-3] + "..."` /
`return summarized_text`. -/
def truncate_or_summarize (text : String) (summarized : Option String) : String :=
  if text.length ≤ TWITTER_CHAR_LIMIT then text
  else if pyTruthy summarized = false ∨ TWITTER_CHAR_LIMIT < (summarized.getD "").length then
    pySlice text (TWITTER_CHAR_LIMIT - 3) ++ "..."
  else summarized.getD ""

/-- The action-type selection of `run_action_cycle`: starting from
`action_type = 'post'`, `strategic_mix` replies when the uniform draw is
below 0.40, and `reply_only` always replies.  The draw
`random.random()` is passed in as a rational in `[0, 1)`. -/
def selectActionType (mode : String) (draw : ℚ) : String :=
  if mode = "strategic_mix" then (if draw < 2/5 then "reply" else "post")
  else if mode = "reply_only" then "reply"
  else "post"

/-- The `ContentPackage` dictionary produced by the generation strategies:
`{"text": ..., "query_for_image": ...}`, both values possibly Python `None`. -/
structure ContentPackage where
  text : Option String
  query_for_image : Option String
deriving DecidableEq, Repr

/-- A news-provider article; `.get('title')` may be absent. -/
structure Article where
  title : Option String
deriving DecidableEq, Repr

/-- The news-provider response body: `{"status": ..., "articles": [...]}`. -/
structure NewsResponse where
  status : String
  articles : List Article
deriving DecidableEq, Repr

/-- The article chosen by `random.choice(api_data["articles"])`, with the
random choice supplied as an index `pick` (reduced modulo the length), and
its `.get('title')`. -/
def chosenHeadline (resp : NewsResponse) (pick : Nat) : Option String :=
  (resp.articles.getD (pick % resp.articles.length) ⟨none⟩).title

/-- `HeadlessTwitterAgent._generate_from_news_article`.  External inputs:
`api_key` (the `NEWSAPI_KEY` secret), the provider response `resp`, the
random article choice `pick`, and the parsed AI response `ai`
(`none` when `call_ai_model` failed or `json.loads` raised, else
`some t` with `t` the parsed object's `.get('tweet_text')`). -/
def generate_from_news_article (api_key : Option String) (resp : NewsResponse)
    (pick : Nat) (ai : Option (Option String)) : Option ContentPackage :=
  if pyTruthy api_key = false then none
  else if resp.status ≠ "ok" ∨ resp.articles = [] then none
  else match chosenHeadline resp pick with
    | none => none
    | some h =>
      if h = "" then none
      else match ai with
        | none => none
        | some t => some ⟨t, some h⟩

/-- The two fields read out of the parsed AI response in the trends
strategy: `.get('tweet_text')` and `.get('analysis')`. -/
structure TrendsAI where
  tweet_text : Option String
  analysis : Option String
deriving DecidableEq, Repr

/-- `HeadlessTwitterAgent._analyze_and_generate_from_global_trends`.
External inputs: the texts of the trend elements found in the browser
(`trendTexts`, filtered to the non-empty ones as in the list
comprehension `[elem.text for elem in ... if elem.text]`) and the parsed AI
response `ai` (`none` when `call_ai_model` failed or `json.loads` raised).
On success returns `{"text": text, "query_for_image": analysis or text}`. -/
def analyze_and_generate_from_global_trends (trendTexts : List String)
    (ai : Option TrendsAI) : Option ContentPackage :=
  if trendTexts.filter (fun t => t ≠ "") = [] then none
  else match ai with
    | none => none
    | some r => some ⟨r.tweet_text, pyOrStr r.analysis r.tweet_text⟩

/-- `HeadlessTwitterAgent._generate_from_word_file`.  External inputs: the
configured `word_file_path`, whether that file exists, whether the `docx`
library imported, and the parsed AI response.  The second component counts
the AI calls made (`call_ai_model` is reached exactly when all the input
checks pass).  A parsed response whose `tweet_text` is absent makes
`text[:100]` raise `TypeError`, caught by the `except` and turned into
`None`. -/
def generate_from_word_file (word_file_path : Option String) (fileExists : Bool)
    (docx_available : Bool) (ai : Option (Option String)) :
    Option ContentPackage × Nat :=
  if pyTruthy word_file_path = false then (none, 0)
  else if fileExists = false then (none, 0)
  else if docx_available = false then (none, 0)
  else match ai with
    | none => (none, 1)
    | some none => (none, 1)
    | some (some t) => (some ⟨some t, some (pySlice t 100)⟩, 1)

/-- A feed item (`article` web element) as seen by
`_find_tweet_to_engage_with`: its full visible text (used for the
"promoted" check) and the three extracted fields, `none` when the
corresponding `find_element` raises `NoSuchElementException`. -/
structure FeedItem where
  fullText : String
  author : Option String
  body : Option String
  url : Option String
deriving DecidableEq, Repr

/-- The engagement-target dictionary `{'author': ..., 'text': ..., 'url': ...}`. -/
structure EngagementTarget where
  author : String
  text : String
  url : String
deriving DecidableEq, Repr

/-- Whether `pat` is an initial segment of the character list. -/
def startsWithPat : List Char → List Char → Bool
  | [], _ => true
  | _ :: _, [] => false
  | a :: as, b :: bs => a == b && startsWithPat as bs

/-- Python `pat in s` on character lists: `pat` occurs contiguously. -/
def containsPat (pat : List Char) : List Char → Bool
  | [] => startsWithPat pat []
  | c :: rest => startsWithPat pat (c :: rest) || containsPat pat rest

/-- `"promoted" in article.text.lower()`. -/
def isPromoted (it : FeedItem) : Bool :=
  containsPat "promoted".data (it.fullText.data.map Char.toLower)

/-- Python `str.strip('@')`: removes leading and trailing `'@'` characters. -/
def stripAt (s : String) : String :=
  String.mk (((s.data.dropWhile (· = '@')).reverse.dropWhile (· = '@')).reverse)

/-- The body of the `try` inside the loop: extract author (`.strip('@')`),
text and url; `none` when any `find_element` raises. -/
def extractTarget (it : FeedItem) : Option EngagementTarget :=
  match it.author, it.body, it.url with
  | some a, some b, some u => some ⟨stripAt a, b, u⟩
  | _, _, _ => none

/-- The loop of `_find_tweet_to_engage_with` over the sampled items
(`random.sample(articles, min(len(articles), 10))` is passed in as
`sample`): skip promoted items, return the first item whose three fields
all extract, skip on extraction failure, `None` when the sample is
exhausted. -/
def find_tweet_to_engage_with : List FeedItem → Option EngagementTarget
  | [] => none
  | it :: rest =>
    if isPromoted it then find_tweet_to_engage_with rest
    else match extractTarget it with
      | some t => some t
      | none => find_tweet_to_engage_with rest

/-- The required-text append in `perform_post_action` /
`perform_reply_action`: `if self.config.get("required_text"):
text = f"{text}\n\n{self.config['required_text']}"`. -/
def append_required_text (t : String) (required_text : Option String) : String :=
  if pyTruthy required_text then t ++ "\n\n" ++ required_text.getD "" else t

/-- The text pipeline of `perform_post_action` from the strategy text to the
text handed to `_post_tweet_in_browser`: length enforcement, then the
required-text append. -/
def dispatchedPostText (text : String) (summarized : Option String)
    (required_text : Option String) : String :=
  append_required_text (truncate_or_summarize text summarized) required_text

/-- The methods of `HeadlessTwitterAgent` that run after `__init__`. -/
inductive AgentOp
  | runActionCycle
  | performPostAction
  | performReplyAction
  | callAIModel
  | truncateOrSummarize
  | getImageFromNewsapi
  | downloadImage
  | cleanupTempImage
  | generateFromNewsArticle
  | analyzeAndGenerateFromGlobalTrends
  | generateFromWordFile
  | postTweetInBrowser
  | replyOnTwitter
  | findTweetToEngageWith
  | createEngagementPrompt
  | createMasterPrompt
  | shutdownBrowser
deriving DecidableEq, Repr

/-- Effect of each method on `self.tweet_history`: no method of the class
assigns to, appends to, or otherwise mutates the list (`tweet_history`
appears only in `__init__`, which sets it to `[]`, and in
`_create_master_prompt`, which reads it). -/
def historyEffect : AgentOp → List String → List String
  | .runActionCycle, h => h
  | .performPostAction, h => h
  | .performReplyAction, h => h
  | .callAIModel, h => h
  | .truncateOrSummarize, h => h
  | .getImageFromNewsapi, h => h
  | .downloadImage, h => h
  | .cleanupTempImage, h => h
  | .generateFromNewsArticle, h => h
  | .analyzeAndGenerateFromGlobalTrends, h => h
  | .generateFromWordFile, h => h
  | .postTweetInBrowser, h => h
  | .replyOnTwitter, h => h
  | .findTweetToEngageWith, h => h
  | .createEngagementPrompt, h => h
  | .createMasterPrompt, h => h
  | .shutdownBrowser, h => h

/-- `self.tweet_history = []` in `__init__`. -/
def tweet_history_init : List String := []

/-- The history list after any sequence of agent method calls. -/
def historyAfter (ops : List AgentOp) : List String :=
  ops.foldl (fun h op => historyEffect op h) tweet_history_init

/-- `history_context = "\n".join(self.tweet_history) if self.tweet_history
else "No recent activity."` in `_create_master_prompt`. -/
def history_context (history : List String) : String :=
  if history.isEmpty then "No recent activity."
  else String.intercalate "\n" history

/-- The part of the prompt f-string before `{history_context}`. -/
def promptHead (personality niche : String) : String :=
  "**Persona:** You are a \x27" ++ personality ++ "\x27 expert in \x27" ++ niche ++
    "\x27.\n**Your Recent Activity:**\n"

/-- The part of the prompt f-string after `{history_context}`:
`\n{main_task}\n**Output Format (Strictly JSON):** ...` with `output_json`
chosen by `is_reply`. -/
def promptTail (task : String) (is_reply : Bool) : String :=
  let output_json :=
    if is_reply then
      "\"analysis\": \"Justification for your reply.\", \"tweet_text\": \"The reply text. DO NOT use @ mentions.\""
    else
      "\"analysis\": \"A brief summary.\", \"tweet_text\": \"The final tweet text.\""
  "\n**TASK:** " ++ task ++
    "\n**Output Format (Strictly JSON):**\n```json\n\x7b\n  " ++ output_json ++
    "\n\x7d\n```"

/-- `HeadlessTwitterAgent._create_master_prompt`. -/
def create_master_prompt (history : List String) (task personality niche : String)
    (is_reply : Bool) : String :=
  promptHead personality niche ++ history_context history ++ promptTail task is_reply

/-! ### Helper lemmas -/

/-- Length of a Python slice. -/
lemma length_pySlice (s : String) (n : Nat) :
    (pySlice s n).length = min n s.length := by
  cases s
  rw [pySlice, String.length_mk, String.length_mk, List.length_take]

/-- Length of the hard-truncation fallback. -/
lemma length_fallback (s : String) :
    (pySlice s (TWITTER_CHAR_LIMIT - 3) ++ "...").length
      = min (TWITTER_CHAR_LIMIT - 3) s.length + 3 := by
  rw [String.length_append, length_pySlice]
  rfl

/-- The length enforcer always lands within the limit. -/
lemma truncate_or_summarize_le (text : String) (summarized : Option String) :
    (truncate_or_summarize text summarized).length ≤ TWITTER_CHAR_LIMIT := by
  unfold truncate_or_summarize
  split
  · assumption
  · split
    · rw [length_fallback]
      show min (280 - 3) text.length + 3 ≤ 280
      have : min (280 - 3) text.length ≤ 280 - 3 := Nat.min_le_left _ _
      omega
    · rename_i h1 h2
      push_neg at h2
      exact h2.2

/-- If `extractTarget` succeeds, all three fields of the item were present. -/
lemma extractTarget_isSome {it : FeedItem} {t : EngagementTarget}
    (h : extractTarget it = some t) :
    it.author.isSome ∧ it.body.isSome ∧ it.url.isSome := by
  unfold extractTarget at h
  cases ha : it.author <;> cases hb : it.body <;> cases hu : it.url <;>
    rw [ha, hb, hu] at h <;> simp_all

/-- Each agent method leaves `tweet_history` unchanged. -/
lemma historyEffect_id (op : AgentOp) (h : List String) : historyEffect op h = h := by
  cases op <;> rfl

/-- Folding agent method calls over any history leaves it unchanged. -/
lemma foldl_historyEffect (l : List AgentOp) (h : List String) :
    l.foldl (fun h op => historyEffect op h) h = h := by
  induction l generalizing h with
  | nil => rfl
  | cons op rest ih =>
    rw [List.foldl_cons]
    show rest.foldl (fun h op => historyEffect op h) (historyEffect op h) = h
    rw [historyEffect_id]
    exact ih h

/-! ### Claim theorems -/

/-- C1: for every input string `text`, the length enforcer
(`_truncate_or_summarize`) returns a string whose length is at most 280,
including when the AI resummarization call fails (`summarized = none`) or
returns a string that itself exceeds 280 characters. -/
theorem C1_length_enforcer_within_limit (text : String) (summarized : Option String) :
    (truncate_or_summarize text summarized).length ≤ 280 :=
  truncate_or_summarize_le text summarized

/-- C2: for every input of length strictly greater than 280, if the AI
resummarization fails or returns a string longer than 280 characters, the
length enforcer returns exactly the first 277 characters of the original
text followed by `"..."`, a result of exactly 280 characters. -/
theorem C2_hard_truncation_fallback (text : String) (summarized : Option String)
    (hlen : 280 < text.length)
    (hfail : summarized = none ∨ ∃ s, summarized = some s ∧ 280 < s.length) :
    truncate_or_summarize text summarized = pySlice text 277 ++ "..." ∧
    (truncate_or_summarize text summarized).length = 280 := by
  have hcond : pyTruthy summarized = false ∨
      280 < (summarized.getD "").length := by
    rcases hfail with h | ⟨s, hs, hsl⟩
    · subst h; left; rfl
    · subst hs; right; exact hsl
  have heq : truncate_or_summarize text summarized = pySlice text 277 ++ "..." := by
    unfold truncate_or_summarize
    simp only [TWITTER_CHAR_LIMIT]
    rw [if_neg (Nat.not_le.mpr hlen), if_pos hcond]
  refine ⟨heq, ?_⟩
  rw [heq]
  have h3 : (pySlice text 277 ++ "...").length = min 277 text.length + 3 := by
    rw [String.length_append, length_pySlice]
    rfl
  rw [h3]
  omega

/-- C2 witness: a 281-character string with a failed resummarization is
truncated to exactly 280 characters. -/
theorem C2_hard_truncation_fallback_witness :
    truncate_or_summarize (String.mk (List.replicate 281 'a')) none
      = pySlice (String.mk (List.replicate 281 'a')) 277 ++ "..." ∧
    (truncate_or_summarize (String.mk (List.replicate 281 'a')) none).length = 280 :=
  C2_hard_truncation_fallback (String.mk (List.replicate 281 'a')) none
    (by rw [String.length_mk, List.length_replicate]; omega) (Or.inl rfl)

/-- C9: the length enforcer is the identity on already-compliant input:
for every string of length at most 280 it returns the input unchanged
(regardless of what the AI would answer). -/
theorem C9_enforcer_identity_on_short (t : String) (summarized : Option String)
    (h : t.length ≤ 280) :
    truncate_or_summarize t summarized = t := by
  unfold truncate_or_summarize
  simp only [TWITTER_CHAR_LIMIT]
  rw [if_pos h]

/-- C9 witness: a short string is returned unchanged. -/
theorem C9_enforcer_identity_on_short_witness :
    truncate_or_summarize "hi" none = "hi" :=
  C9_enforcer_identity_on_short "hi" none (by decide)

/-- C3: the action selector yields `"reply"` always under `reply_only`;
under `strategic_mix` it yields `"reply"` exactly when the uniform draw is
below 0.40 and `"post"` otherwise; and it yields `"post"` for every other
mode. -/
theorem C3_action_selector (mode : String) (draw : ℚ) :
    selectActionType "reply_only" draw = "reply" ∧
    (draw < 2/5 → selectActionType "strategic_mix" draw = "reply") ∧
    (¬ draw < 2/5 → selectActionType "strategic_mix" draw = "post") ∧
    (mode ≠ "strategic_mix" → mode ≠ "reply_only" → selectActionType mode draw = "post") := by
  refine ⟨by simp [selectActionType], ?_, ?_, ?_⟩
  · intro h; simp [selectActionType, h]
  · intro h; simp [selectActionType, h]
  · intro h1 h2; simp [selectActionType, h1, h2]

/-- C3 witness: concrete draws and modes. -/
theorem C3_action_selector_witness :
    selectActionType "reply_only" (1/2) = "reply" ∧
    selectActionType "strategic_mix" (1/5) = "reply" ∧
    selectActionType "strategic_mix" (1/2) = "post" ∧
    selectActionType "post_only_news" (1/2) = "post" :=
  ⟨(C3_action_selector "x" (1/2)).1,
   (C3_action_selector "x" (1/5)).2.1 (by norm_num),
   (C3_action_selector "x" (1/2)).2.2.1 (by norm_num),
   (C3_action_selector "post_only_news" (1/2)).2.2.2 (by decide) (by decide)⟩

/-- C6: when `required_text` is configured non-empty, the dispatched text is
the length-enforced strategy text, two newlines, then the trailer; the
append happens after enforcement, so only the enforced prefix is bounded by
280. -/
theorem C6_required_text_appended_after_enforcement (text : String)
    (summarized : Option String) (r : String) (hr : r ≠ "") :
    dispatchedPostText text summarized (some r)
      = truncate_or_summarize text summarized ++ "\n\n" ++ r ∧
    (truncate_or_summarize text summarized).length ≤ 280 := by
  constructor
  · simp [dispatchedPostText, append_required_text, pyTruthy, hr]
  · exact truncate_or_summarize_le text summarized

/-- C6 witness: enforced text `"Hello"` with trailer `"Posted by Bot"`
dispatches as `"Hello\n\nPosted by Bot"`. -/
theorem C6_required_text_appended_after_enforcement_witness :
    dispatchedPostText "Hello" none (some "Posted by Bot") = "Hello\n\nPosted by Bot" ∧
    (truncate_or_summarize "Hello" none).length ≤ 280 := by
  have h := C6_required_text_appended_after_enforcement "Hello" none "Posted by Bot" (by decide)
  exact ⟨by rw [h.1]; decide, h.2⟩

/-- C4: the news strategy returns nothing on a non-success status, an empty
article list, or an absent/empty chosen headline; and every package it
produces has `query_for_image` equal to the chosen article's headline. -/
theorem C4_news_strategy (api_key : Option String) (resp : NewsResponse)
    (pick : Nat) (ai : Option (Option String)) :
    (resp.status ≠ "ok" → generate_from_news_article api_key resp pick ai = none) ∧
    (resp.articles = [] → generate_from_news_article api_key resp pick ai = none) ∧
    ((chosenHeadline resp pick = none ∨ chosenHeadline resp pick = some "") →
      generate_from_news_article api_key resp pick ai = none) ∧
    (∀ pkg, generate_from_news_article api_key resp pick ai = some pkg →
      pkg.query_for_image = chosenHeadline resp pick) := by
  refine ⟨?_, ?_, ?_, ?_⟩
  · intro h
    unfold generate_from_news_article
    split
    · rfl
    · rw [if_pos (Or.inl h)]
  · intro h
    unfold generate_from_news_article
    split
    · rfl
    · rw [if_pos (Or.inr h)]
  · intro h
    rcases h with h | h <;> simp [generate_from_news_article, h]
  · intro pkg h
    by_cases hk : pyTruthy api_key = false
    · simp [generate_from_news_article, hk] at h
    · by_cases hs : resp.status ≠ "ok" ∨ resp.articles = []
      · simp [generate_from_news_article, hk, hs] at h
      · cases hc : chosenHeadline resp pick with
        | none => simp [generate_from_news_article, hk, hs, hc] at h
        | some hd =>
          by_cases hhd : hd = ""
          · simp [generate_from_news_article, hk, hs, hc, hhd] at h
          · cases ai with
            | none => simp [generate_from_news_article, hk, hs, hc, hhd] at h
            | some t =>
              have hg : generate_from_news_article api_key resp pick (some t)
                  = some ⟨t, some hd⟩ := by
                simp [generate_from_news_article, hk, hs, hc, hhd]
              rw [hg] at h
              cases h
              rfl

/-- C4 witness: a single article titled "NASA announces new mission" yields
a package whose `query_for_image` is that headline. -/
theorem C4_news_strategy_witness :
    generate_from_news_article (some "key") ⟨"ok", [⟨some "NASA announces new mission"⟩]⟩
        0 (some (some "Tweet")) = some ⟨some "Tweet", some "NASA announces new mission"⟩ ∧
    (ContentPackage.mk (some "Tweet") (some "NASA announces new mission")).query_for_image
      = chosenHeadline ⟨"ok", [⟨some "NASA announces new mission"⟩]⟩ 0 :=
  ⟨by decide,
   (C4_news_strategy (some "key") ⟨"ok", [⟨some "NASA announces new mission"⟩]⟩
      0 (some (some "Tweet"))).2.2.2 ⟨some "Tweet", some "NASA announces new mission"⟩
      (by decide)⟩

/-- C5 counterexample: the trends strategy at trend list `["t"]` and a
parsed AI response with `tweet_text` present but empty and `analysis`
absent produces `query_for_image = some ""`, which is not the (absent)
analysis field: the code computes `analysis or text`, which falls back to
the text field when the analysis is falsy. -/
theorem C5_trends_query_counterexample :
    analyze_and_generate_from_global_trends ["t"] (some ⟨some "", none⟩)
      = some ⟨some "", some ""⟩ ∧
    (TrendsAI.mk (some "") none).analysis = none ∧
    (some "" : Option String) ≠ none := by
  refine ⟨by decide, rfl, by simp⟩

/-- C5 amended: whenever the AI response parses successfully, its text field
is unavailable (absent or empty), and its analysis field is available
(present and non-empty), the produced package's `query_for_image` equals
the analysis field. -/
theorem C5_trends_query_is_analysis (trendTexts : List String) (r : TrendsAI)
    (pkg : ContentPackage)
    (hgen : analyze_and_generate_from_global_trends trendTexts (some r) = some pkg)
    (_htext : r.tweet_text = none ∨ r.tweet_text = some "")
    (hanal : pyTruthy r.analysis = true) :
    pkg.query_for_image = r.analysis := by
  unfold analyze_and_generate_from_global_trends at hgen
  split at hgen
  · exact absurd hgen (by simp)
  · have h2 : some (ContentPackage.mk r.tweet_text (pyOrStr r.analysis r.tweet_text))
        = some pkg := hgen
    cases h2
    simp [pyOrStr, hanal]

/-- C5 amended witness: text absent, analysis `"a"`. -/
theorem C5_trends_query_is_analysis_witness :
    analyze_and_generate_from_global_trends ["t"] (some ⟨none, some "a"⟩)
      = some ⟨none, some "a"⟩ ∧
    (ContentPackage.mk none (some "a")).query_for_image
      = (TrendsAI.mk none (some "a")).analysis :=
  ⟨by decide,
   C5_trends_query_is_analysis ["t"] ⟨none, some "a"⟩ ⟨none, some "a"⟩ (by decide)
     (Or.inl rfl) (by decide)⟩

/-- C7: engagement discovery inspects at most 10 items (the sample is drawn
without replacement with size `min(len, 10)`); any returned target comes
from a sampled item that is not promoted and whose author, body and
permalink all extracted. -/
theorem C7_engagement_discovery (articles sample : List FeedItem)
    (_hsub : sample.Subperm articles)
    (hlen : sample.length = min articles.length 10) :
    sample.length ≤ 10 ∧
    ∀ t, find_tweet_to_engage_with sample = some t →
      ∃ it, it ∈ sample ∧ isPromoted it = false ∧
        it.author.isSome ∧ it.body.isSome ∧ it.url.isSome ∧
        extractTarget it = some t := by
  constructor
  · rw [hlen]; exact Nat.min_le_right _ _
  · clear _hsub hlen
    induction sample with
    | nil => intro t h; exact absurd h (by simp [find_tweet_to_engage_with])
    | cons it rest ih =>
      intro t h
      simp only [find_tweet_to_engage_with] at h
      cases hp : isPromoted it with
      | true =>
        rw [hp] at h
        simp only [if_true] at h
        obtain ⟨it', hmem, hrest⟩ := ih t h
        exact ⟨it', List.mem_cons_of_mem _ hmem, hrest⟩
      | false =>
        rw [hp] at h
        simp only [Bool.false_eq_true, if_false] at h
        cases he : extractTarget it with
        | some tgt =>
          rw [he] at h
          cases h
          obtain ⟨ha, hb, hu⟩ := extractTarget_isSome he
          exact ⟨it, List.mem_cons_self _ _, hp, ha, hb, hu, he⟩
        | none =>
          rw [he] at h
          obtain ⟨it', hmem, hrest⟩ := ih t h
          exact ⟨it', List.mem_cons_of_mem _ hmem, hrest⟩

/-- C7 witness: a one-item sample with all fields present. -/
theorem C7_engagement_discovery_witness :
    ([(⟨"x", some "@alice", some "hi", some "u"⟩ : FeedItem)]).length ≤ 10 ∧
    ∃ it, it ∈ [(⟨"x", some "@alice", some "hi", some "u"⟩ : FeedItem)] ∧
      isPromoted it = false ∧
      it.author.isSome ∧ it.body.isSome ∧ it.url.isSome ∧
      extractTarget it = some ⟨"alice", "hi", "u"⟩ := by
  have h := C7_engagement_discovery [⟨"x", some "@alice", some "hi", some "u"⟩]
    [⟨"x", some "@alice", some "hi", some "u"⟩] (List.Subperm.refl _) (by decide)
  exact ⟨h.1, h.2 ⟨"alice", "hi", "u"⟩ (by decide)⟩

/-- C8: every strategy returns nothing when its input source is
unavailable: trends with no non-empty trend texts; news with a non-success
status or no articles; the document strategy with no configured path,
which additionally makes zero AI calls; the document strategy with a
configured path whose file is missing, also with zero AI calls; and
engagement discovery when every sampled item is promoted or fails
extraction. -/
theorem C8_source_unavailable_returns_none :
    (∀ (tl : List String) (ai : Option TrendsAI),
      tl.filter (fun t => t ≠ "") = [] →
      analyze_and_generate_from_global_trends tl ai = none) ∧
    (∀ (k : Option String) (resp : NewsResponse) (pick : Nat) (ai : Option (Option String)),
      resp.status ≠ "ok" ∨ resp.articles = [] →
      generate_from_news_article k resp pick ai = none) ∧
    (∀ (fe da : Bool) (ai : Option (Option String)),
      generate_from_word_file none fe da ai = (none, 0)) ∧
    (∀ (p : String) (da : Bool) (ai : Option (Option String)),
      generate_from_word_file (some p) false da ai = (none, 0)) ∧
    (∀ sample : List FeedItem,
      (∀ it ∈ sample, isPromoted it = true ∨ extractTarget it = none) →
      find_tweet_to_engage_with sample = none) := by
  refine ⟨?_, ?_, ?_, ?_, ?_⟩
  · intro tl ai h
    unfold analyze_and_generate_from_global_trends
    rw [if_pos h]
  · intro k resp pick ai h
    unfold generate_from_news_article
    by_cases hk : pyTruthy k = false
    · rw [if_pos hk]
    · rw [if_neg hk, if_pos h]
  · intro fe da ai
    rfl
  · intro p da ai
    unfold generate_from_word_file
    by_cases hp : pyTruthy (some p) = false
    · rw [if_pos hp]
    · rw [if_neg hp]
      rfl
  · intro sample
    induction sample with
    | nil => intro h; rfl
    | cons it rest ih =>
      intro h
      simp only [find_tweet_to_engage_with]
      rcases h it (List.mem_cons_self _ _) with hp | he
      · rw [hp]
        simp only [if_true]
        exact ih fun x hx => h x (List.mem_cons_of_mem _ hx)
      · rw [he]
        split
        · exact ih fun x hx => h x (List.mem_cons_of_mem _ hx)
        · exact ih fun x hx => h x (List.mem_cons_of_mem _ hx)

/-- C8 witness: concrete unavailable sources for all four strategies. -/
theorem C8_source_unavailable_returns_none_witness :
    analyze_and_generate_from_global_trends [""] none = none ∧
    generate_from_news_article (some "k") ⟨"error", []⟩ 0 none = none ∧
    generate_from_word_file none true true (some (some "t")) = (none, 0) ∧
    generate_from_word_file (some "notes.docx") false true (some (some "t")) = (none, 0) ∧
    find_tweet_to_engage_with [⟨"promoted content", some "a", some "b", some "c"⟩] = none := by
  refine ⟨C8_source_unavailable_returns_none.1 [""] none (by decide),
    C8_source_unavailable_returns_none.2.1 (some "k") ⟨"error", []⟩ 0 none (Or.inl (by decide)),
    C8_source_unavailable_returns_none.2.2.1 true true (some (some "t")),
    C8_source_unavailable_returns_none.2.2.2.1 "notes.docx" true (some (some "t")),
    C8_source_unavailable_returns_none.2.2.2.2 _ ?_⟩
  intro it hit
  rw [List.mem_singleton] at hit
  subst hit
  left
  decide

/-- C10: `tweet_history` starts empty and no agent method mutates it, so
after any sequence of method calls the history is still empty and every
prompt the prompt builder produces renders the "No recent activity."
marker in place of prior published text. -/
theorem C10_history_stays_empty (ops : List AgentOp)
    (task personality niche : String) (is_reply : Bool) :
    historyAfter ops = [] ∧
    history_context (historyAfter ops) = "No recent activity." ∧
    create_master_prompt (historyAfter ops) task personality niche is_reply
      = promptHead personality niche ++ "No recent activity." ++
        promptTail task is_reply := by
  have hemp : historyAfter ops = [] := foldl_historyEffect ops tweet_history_init
  refine ⟨hemp, ?_, ?_⟩
  · rw [hemp]; rfl
  · rw [create_master_prompt, hemp]; rfl

end TwitterAgent
